import Mathlib

/-!
Verification of the GalvaSim potential-calculation engine (src/script.js).

The numeric core of the repository is two operations:
  * `EnvironmentSettings.modifyPotential`, which corrects a raw standard
    reduction potential for temperature, pressure, solvent, catalyst and pH
    and rounds the result to 3 decimal places (`toFixed(3)`, re-parsed by the
    caller with `parseFloat`);
  * `AdvancedElectrochemicalCell.calculateCellPotential`, which looks up the
    two standard potentials, corrects each, combines them through a Nernst
    term with the transferred-electron count fixed at 2, and rounds the final
    potential to 4 decimal places (`toFixed(4)`).

JavaScript numbers are modelled as real numbers, `Math.log` as `Real.log`,
and `toFixed(n)` followed by re-parsing as rounding to the nearest multiple
of `10 ^ (-n)`.  Errors thrown by the engine are modelled with `Except`,
carrying the exact message string thrown by the source.
-/

namespace GalvaSim

/-- `x.toFixed(3)` re-parsed as a number: `x` rounded to the nearest
multiple of `1/1000`. -/
noncomputable def round3 (x : ℝ) : ℝ := (round (x * 1000) : ℤ) / 1000

/-- `x.toFixed(4)` re-parsed as a number: `x` rounded to the nearest
multiple of `1/10000`. -/
noncomputable def round4 (x : ℝ) : ℝ := (round (x * 10000) : ℤ) / 10000

/-- The `EnvironmentSettings` value object of script.js (lines 170-195):
temperature in Celsius, pressure in atmospheres, a solvent name, an optional
catalyst identifier (`null` when the form field is empty), and pH. -/
structure EnvironmentSettings where
  temperature : ℝ
  pressure : ℝ
  solvent : String
  catalyst : Option String
  ph : ℝ

/-- The `solventFactors` lookup of `modifyPotential` (script.js lines
184-191): `solventFactors[this.solvent] || 1.0`, a fixed table with a
neutral default of `1.0` for any other solvent name. -/
def solventFactor (s : String) : ℝ :=
  if s = "Water" then 1.0
  else if s = "Methanol" then 0.95
  else if s = "Ethanol" then 0.90
  else if s = "DMSO" then 1.1
  else if s = "Acetonitrile" then 1.05
  else 1.0

/-- The catalyst boost of `modifyPotential` (script.js line 192):
`this.catalyst ? 0.05 : 0.0`.  `null` and the empty string are falsy in
JavaScript, so only a present, non-empty identifier grants the boost. -/
def catalystBoost (c : Option String) : ℝ :=
  match c with
  | none => 0.0
  | some s => if s = "" then 0.0 else 0.05

/-- `EnvironmentSettings.modifyPotential` (script.js lines 179-194):
corrects a base potential for the ambient conditions and rounds to 3
decimal places. -/
noncomputable def EnvironmentSettings.modifyPotential
    (env : EnvironmentSettings) (basePotential : ℝ) : ℝ :=
  let temperatureK := env.temperature + 273.15
  let tempFactor := temperatureK / 298.15
  let pressureFactor := Real.log env.pressure
  let phFactor := -0.059 * (env.ph - 7)
  let sf := solventFactor env.solvent
  let cb := catalystBoost env.catalyst
  round3 (basePotential * tempFactor * sf + pressureFactor * 0.01 + phFactor + cb)

/-- The `SimulationParameters` value object of script.js (lines 197-206). -/
structure SimulationParameters where
  anode : String
  cathode : String
  concAnode : ℝ
  concCathode : ℝ
  molesReactant : ℝ
  environment : EnvironmentSettings

/-- The `AdvancedElectrochemicalCell` engine of script.js (lines 208-251):
holds the environment it was constructed with. -/
structure AdvancedElectrochemicalCell where
  environment : EnvironmentSettings

/-- The `STANDARD_REDUCTION_POTENTIALS` table of script.js (lines 253-271):
a fixed map from electrode symbol to standard reduction potential in volts;
`none` models an absent key. -/
def STANDARD_REDUCTION_POTENTIALS (s : String) : Option ℝ :=
  if s = "Li" then some (-3.04)
  else if s = "K" then some (-2.93)
  else if s = "Ca" then some (-2.87)
  else if s = "Na" then some (-2.71)
  else if s = "Mg" then some (-2.37)
  else if s = "Al" then some (-1.66)
  else if s = "Zn" then some (-0.76)
  else if s = "Fe" then some (-0.44)
  else if s = "Ni" then some (-0.25)
  else if s = "Sn" then some (-0.14)
  else if s = "Pb" then some (-0.13)
  else if s = "H2" then some 0.00
  else if s = "Cu" then some 0.34
  else if s = "Ag" then some 0.80
  else if s = "Hg" then some 0.85
  else if s = "Pt" then some 1.20
  else if s = "Au" then some 1.50
  else none

/-- Faraday constant, exactly as written in script.js line 224. -/
def F : ℝ := 96485.3321233100184

/-- Gas constant, exactly as written in script.js line 225. -/
def R : ℝ := 8.31446261815324

open Classical in
/-- `AdvancedElectrochemicalCell.calculateCellPotential` (script.js lines
213-239).  The thrown errors are modelled with `Except.error` carrying the
source's message; the electrode check precedes the zero-concentration
check, as in the source. -/
noncomputable def AdvancedElectrochemicalCell.calculateCellPotential
    (cell : AdvancedElectrochemicalCell) (params : SimulationParameters) :
    Except String ℝ :=
  match STANDARD_REDUCTION_POTENTIALS params.anode,
        STANDARD_REDUCTION_POTENTIALS params.cathode with
  | some potA, some potC =>
    let E0_anode := cell.environment.modifyPotential potA
    let E0_cathode := cell.environment.modifyPotential potC
    let E0_cell := E0_cathode - E0_anode
    let temperatureK := cell.environment.temperature + 273.15
    let RT_nF := (temperatureK * R) / (2 * F)
    if params.concCathode = 0 then
      Except.error "Cathode concentration cannot be zero"
    else
      let Q := params.concAnode / params.concCathode
      Except.ok (round4 (E0_cell - RT_nF * Real.log Q))
  | _, _ => Except.error "Invalid electrode materials"

/-- The reference environment of the spec's reference case: 25 degrees C,
1 atm, Water, no catalyst, pH 7 (the `zinc_copper` preset). -/
noncomputable def refEnv : EnvironmentSettings :=
  { temperature := 25, pressure := 1, solvent := "Water", catalyst := none, ph := 7 }

/-- The reference simulation parameters: Zn anode, Cu cathode, unit
concentrations, one mole of reactant, over `refEnv`. -/
noncomputable def refParams : SimulationParameters :=
  { anode := "Zn", cathode := "Cu", concAnode := 1, concCathode := 1,
    molesReactant := 1, environment := refEnv }

/-- The engine bound to the reference environment. -/
noncomputable def refCell : AdvancedElectrochemicalCell := { environment := refEnv }

example : STANDARD_REDUCTION_POTENTIALS "Zn" = some (-0.76) := rfl

example : STANDARD_REDUCTION_POTENTIALS "Xx" = none := rfl

example : solventFactor "Water" = 1.0 := rfl

example : catalystBoost (some "Pt") = 0.05 := rfl

/-- Rounding to 3 decimals commutes with adding an exact multiple of
`1/1000`; this is why the flat catalyst and pH shifts survive the
`toFixed(3)` rounding exactly. -/
theorem round3_add_int_div (x : ℝ) (k : ℤ) :
    round3 (x + k / 1000) = round3 x + k / 1000 := by
  unfold round3
  have h : (x + (k : ℝ) / 1000) * 1000 = x * 1000 + (k : ℝ) := by ring
  rw [h, round_add_int]
  push_cast
  ring

/-- Shared evaluation lemma: on in-table electrodes and a non-zero cathode
concentration, `calculateCellPotential` returns the rounded Nernst
combination of the two corrected half-cell potentials. -/
theorem calculateCellPotential_ok
    (cell : AdvancedElectrochemicalCell) (params : SimulationParameters)
    (potA potC : ℝ)
    (ha : STANDARD_REDUCTION_POTENTIALS params.anode = some potA)
    (hc : STANDARD_REDUCTION_POTENTIALS params.cathode = some potC)
    (hz : params.concCathode ≠ 0) :
    cell.calculateCellPotential params =
      Except.ok (round4
        (cell.environment.modifyPotential potC - cell.environment.modifyPotential potA
          - ((cell.environment.temperature + 273.15) * R / (2 * F))
            * Real.log (params.concAnode / params.concCathode))) := by
  unfold AdvancedElectrochemicalCell.calculateCellPotential
  rw [ha, hc]
  simp only [hz, if_false]

/-- The spec's solvent multiplier table (spec section 4.1 step 5), stated
from the spec's words for comparison with the source's lookup. -/
def solventFactorSpec (s : String) : ℝ :=
  if s = "Water" then 1.0
  else if s = "Methanol" then 0.95
  else if s = "Ethanol" then 0.90
  else if s = "DMSO" then 1.1
  else if s = "Acetonitrile" then 1.05
  else 1.0

/-- The spec's catalyst boost (spec section 4.1 step 6): 0.05 V if a
catalyst identifier is present and non-empty, else 0.0. -/
def catalystBoostSpec : Option String → ℝ
  | some s => if s ≠ "" then 0.05 else 0.0
  | none => 0.0

/-- The spec's correction formula (spec section 4.1 steps 1-8), stated from
the spec's words:
`round3(b × tempFactor × solventFactor + ln(pressure) × 0.01 + phFactor + catalystBoost)`. -/
noncomputable def modifyPotentialSpec (env : EnvironmentSettings) (b : ℝ) : ℝ :=
  round3 (b * ((env.temperature + 273.15) / 298.15) * solventFactorSpec env.solvent
    + Real.log env.pressure * 0.01 + -0.059 * (env.ph - 7)
    + catalystBoostSpec env.catalyst)

/-- C1: for every `SimulationParameters` whose anode and cathode are keys of
the standard reduction potential table and whose `concCathode` is non-zero,
`calculateCellPotential` returns
`round4(E_cathode - E_anode - ((T + 273.15) * R / (2 * F)) * ln(concAnode / concCathode))`,
where the half-cell potentials are the environment-corrected (3-decimal
rounded, re-parsed) standard potentials and the electron count is fixed
at 2. -/
theorem cellPotential_formula
    (cell : AdvancedElectrochemicalCell) (params : SimulationParameters)
    (potA potC : ℝ)
    (ha : STANDARD_REDUCTION_POTENTIALS params.anode = some potA)
    (hc : STANDARD_REDUCTION_POTENTIALS params.cathode = some potC)
    (hz : params.concCathode ≠ 0) :
    cell.calculateCellPotential params =
      Except.ok (round4
        (cell.environment.modifyPotential potC - cell.environment.modifyPotential potA
          - ((cell.environment.temperature + 273.15) * R / (2 * F))
            * Real.log (params.concAnode / params.concCathode))) :=
  calculateCellPotential_ok cell params potA potC ha hc hz

/-- Witness for C1: the Zn/Cu reference input satisfies the hypotheses and
the formula holds there. -/
theorem cellPotential_formula_witness :
    STANDARD_REDUCTION_POTENTIALS refParams.anode = some (-0.76) ∧
    STANDARD_REDUCTION_POTENTIALS refParams.cathode = some 0.34 ∧
    refParams.concCathode ≠ 0 ∧
    refCell.calculateCellPotential refParams =
      Except.ok (round4
        (refCell.environment.modifyPotential 0.34
          - refCell.environment.modifyPotential (-0.76)
          - ((refCell.environment.temperature + 273.15) * R / (2 * F))
            * Real.log (refParams.concAnode / refParams.concCathode))) :=
  ⟨rfl, rfl, by norm_num [refParams],
    cellPotential_formula refCell refParams (-0.76) 0.34 rfl rfl (by norm_num [refParams])⟩

/-- C2: for every base potential and every environment with positive
pressure, `modifyPotential` returns exactly the spec's correction formula,
with the spec's solvent table (defaulting to 1.0) and the spec's flat
catalyst boost. -/
theorem modifyPotential_matches_spec (env : EnvironmentSettings) (b : ℝ)
    (hp : 0 < env.pressure) :
    env.modifyPotential b = modifyPotentialSpec env b := by
  have hsf : solventFactor env.solvent = solventFactorSpec env.solvent := rfl
  have hcb : catalystBoost env.catalyst = catalystBoostSpec env.catalyst := by
    cases env.catalyst with
    | none => rfl
    | some s =>
      by_cases h : s = ""
      · simp [catalystBoost, catalystBoostSpec, h]
      · simp [catalystBoost, catalystBoostSpec, h]
  simp only [EnvironmentSettings.modifyPotential, modifyPotentialSpec, hsf, hcb]

/-- Witness for C2: the reference environment has positive pressure and the
correction formula holds there on base potential 0.34. -/
theorem modifyPotential_matches_spec_witness :
    0 < refEnv.pressure ∧
    refEnv.modifyPotential 0.34 = modifyPotentialSpec refEnv 0.34 :=
  ⟨by norm_num [refEnv],
    modifyPotential_matches_spec refEnv 0.34 (by norm_num [refEnv])⟩

/-- C3: on the reference input (Zn anode, Cu cathode, unit concentrations,
25 degrees C, 1 atm, Water, no catalyst, pH 7) the environment correction
is the identity on each standard potential (corrected anode potential
-0.760, corrected cathode potential 0.340) and `calculateCellPotential`
returns exactly 1.1000. -/
theorem reference_case_zn_cu :
    refEnv.modifyPotential (-0.76) = -0.760 ∧
    refEnv.modifyPotential 0.34 = 0.340 ∧
    refCell.calculateCellPotential refParams = Except.ok 1.1000 := by
  have ha : refEnv.modifyPotential (-0.76) = -0.760 := by
    simp only [EnvironmentSettings.modifyPotential, refEnv, catalystBoost]
    norm_num [solventFactor, Real.log_one, round3, round_eq]
  have hc : refEnv.modifyPotential 0.34 = 0.340 := by
    simp only [EnvironmentSettings.modifyPotential, refEnv, catalystBoost]
    norm_num [solventFactor, Real.log_one, round3, round_eq]
  refine ⟨ha, hc, ?_⟩
  have hcalc := calculateCellPotential_ok refCell refParams (-0.76) 0.34 rfl rfl
    (by norm_num [refParams])
  rw [hcalc]
  simp only [refCell, refParams]
  rw [ha, hc]
  norm_num [Real.log_one, round4, round_eq]

/-- C4: whenever the anode or the cathode identifier is not a key of the
standard reduction potential table, `calculateCellPotential` fails with the
unknown-electrode-material error thrown at script.js lines 215-217 and
produces no numeric result. -/
theorem unknown_electrode_error
    (cell : AdvancedElectrochemicalCell) (params : SimulationParameters)
    (h : STANDARD_REDUCTION_POTENTIALS params.anode = none ∨
         STANDARD_REDUCTION_POTENTIALS params.cathode = none) :
    cell.calculateCellPotential params = Except.error "Invalid electrode materials" := by
  unfold AdvancedElectrochemicalCell.calculateCellPotential
  rcases h with h | h
  · rw [h]
  · cases hA : STANDARD_REDUCTION_POTENTIALS params.anode with
    | none => rw [h]
    | some a => rw [h]

/-- Witness for C4: anode "Xx" is not in the table, and the engine errors
on it. -/
theorem unknown_electrode_error_witness :
    (STANDARD_REDUCTION_POTENTIALS "Xx" = none ∨
      STANDARD_REDUCTION_POTENTIALS "Cu" = none) ∧
    refCell.calculateCellPotential
        { anode := "Xx", cathode := "Cu", concAnode := 1, concCathode := 1,
          molesReactant := 1, environment := refEnv }
      = Except.error "Invalid electrode materials" :=
  ⟨Or.inl rfl,
    unknown_electrode_error refCell
      { anode := "Xx", cathode := "Cu", concAnode := 1, concCathode := 1,
        molesReactant := 1, environment := refEnv }
      (Or.inl rfl)⟩

/-- C5: with both electrodes in the table but a cathode concentration of
zero, `calculateCellPotential` fails with the zero-cathode-concentration
error thrown at script.js lines 228-230 and produces no result. -/
theorem zero_cathode_error
    (cell : AdvancedElectrochemicalCell) (params : SimulationParameters)
    (potA potC : ℝ)
    (ha : STANDARD_REDUCTION_POTENTIALS params.anode = some potA)
    (hc : STANDARD_REDUCTION_POTENTIALS params.cathode = some potC)
    (hz : params.concCathode = 0) :
    cell.calculateCellPotential params =
      Except.error "Cathode concentration cannot be zero" := by
  unfold AdvancedElectrochemicalCell.calculateCellPotential
  rw [ha, hc]
  simp only [hz, if_true]

/-- Witness for C5: Zn/Cu with `concCathode = 0` errors. -/
theorem zero_cathode_error_witness :
    STANDARD_REDUCTION_POTENTIALS "Zn" = some (-0.76) ∧
    STANDARD_REDUCTION_POTENTIALS "Cu" = some 0.34 ∧
    refCell.calculateCellPotential
        { anode := "Zn", cathode := "Cu", concAnode := 1, concCathode := 0,
          molesReactant := 1, environment := refEnv }
      = Except.error "Cathode concentration cannot be zero" :=
  ⟨rfl, rfl,
    zero_cathode_error refCell
      { anode := "Zn", cathode := "Cu", concAnode := 1, concCathode := 0,
        molesReactant := 1, environment := refEnv }
      (-0.76) 0.34 rfl rfl rfl⟩

/-- C6: holding every other input fixed, any non-empty catalyst identifier
raises the corrected half-cell potential by exactly 0.05 V over no
catalyst, and any two non-empty catalyst names yield identical corrected
values. -/
theorem catalyst_boost_flat (env : EnvironmentSettings) (b : ℝ)
    (c d : String) (hc : c ≠ "") (hd : d ≠ "") :
    ({ env with catalyst := some c } : EnvironmentSettings).modifyPotential b
        = ({ env with catalyst := none } : EnvironmentSettings).modifyPotential b + 0.05
      ∧ ({ env with catalyst := some c } : EnvironmentSettings).modifyPotential b
        = ({ env with catalyst := some d } : EnvironmentSettings).modifyPotential b := by
  constructor
  · simp only [EnvironmentSettings.modifyPotential, catalystBoost]
    rw [if_neg hc]
    have h05 : (0.05 : ℝ) = ((50 : ℤ) : ℝ) / 1000 := by norm_num
    rw [h05, round3_add_int_div]
    norm_num
  · simp only [EnvironmentSettings.modifyPotential, catalystBoost]
    rw [if_neg hc, if_neg hd]

/-- Witness for C6: catalysts "Pt" and "Ni" over the reference environment
with base potential 0.34. -/
theorem catalyst_boost_flat_witness :
    ("Pt" ≠ "" ∧ "Ni" ≠ "") ∧
    (({ refEnv with catalyst := some "Pt" } : EnvironmentSettings).modifyPotential 0.34
        = ({ refEnv with catalyst := none } : EnvironmentSettings).modifyPotential 0.34 + 0.05
      ∧ ({ refEnv with catalyst := some "Pt" } : EnvironmentSettings).modifyPotential 0.34
        = ({ refEnv with catalyst := some "Ni" } : EnvironmentSettings).modifyPotential 0.34) :=
  ⟨⟨by decide, by decide⟩,
    catalyst_boost_flat refEnv 0.34 "Pt" "Ni" (by decide) (by decide)⟩

/-- C7: increasing the pH by 1 unit while holding every other input fixed
shifts the corrected half-cell potential by exactly -0.059 V; the shift
survives the 3-decimal rounding exactly because 0.059 is a multiple of
1/1000. -/
theorem ph_shift_exact (env : EnvironmentSettings) (b : ℝ) :
    ({ env with ph := env.ph + 1 } : EnvironmentSettings).modifyPotential b
      = env.modifyPotential b + (-0.059) := by
  simp only [EnvironmentSettings.modifyPotential]
  have key : ∀ A C : ℝ,
      round3 (A + -0.059 * (env.ph + 1 - 7) + C)
        = round3 (A + -0.059 * (env.ph - 7) + C) + (-0.059) := by
    intro A C
    have e1 : A + -0.059 * (env.ph + 1 - 7) + C
        = (A + -0.059 * (env.ph - 7) + C) + ((-59 : ℤ) : ℝ) / 1000 := by
      push_cast
      ring
    rw [e1, round3_add_int_div]
    norm_num
  exact key _ _

/-- Any `round3` value is an integer number of thousandths. -/
theorem round3_den (x : ℝ) : ∃ m : ℤ, round3 x = (m : ℝ) / 1000 :=
  ⟨round (x * 1000), rfl⟩

/-- Any `round4` value is an integer number of ten-thousandths. -/
theorem round4_den (x : ℝ) : ∃ k : ℤ, round4 x = (k : ℝ) / 10000 :=
  ⟨round (x * 10000), rfl⟩

/-- C8: on inputs satisfying the preconditions (electrodes in the table,
non-zero cathode concentration, positive pressure) the returned cell
potential is an exact multiple of `1/10000` (4 decimal places) and each
intermediate corrected half-cell potential is an exact multiple of `1/1000`
(3 decimal places). -/
theorem rounding_stability
    (cell : AdvancedElectrochemicalCell) (params : SimulationParameters)
    (potA potC : ℝ)
    (ha : STANDARD_REDUCTION_POTENTIALS params.anode = some potA)
    (hc : STANDARD_REDUCTION_POTENTIALS params.cathode = some potC)
    (hz : params.concCathode ≠ 0)
    (hp : 0 < cell.environment.pressure) :
    (∃ k : ℤ, cell.calculateCellPotential params = Except.ok ((k : ℝ) / 10000)) ∧
    (∃ m : ℤ, cell.environment.modifyPotential potA = (m : ℝ) / 1000) ∧
    (∃ m : ℤ, cell.environment.modifyPotential potC = (m : ℝ) / 1000) := by
  refine ⟨?_, ?_, ?_⟩
  · rw [calculateCellPotential_ok cell params potA potC ha hc hz]
    obtain ⟨k, hk⟩ := round4_den
      (cell.environment.modifyPotential potC - cell.environment.modifyPotential potA
        - ((cell.environment.temperature + 273.15) * R / (2 * F))
          * Real.log (params.concAnode / params.concCathode))
    exact ⟨k, by rw [hk]⟩
  · simp only [EnvironmentSettings.modifyPotential]
    exact round3_den _
  · simp only [EnvironmentSettings.modifyPotential]
    exact round3_den _

/-- Witness for C8: the Zn/Cu reference input satisfies the preconditions
and both rounding facts hold there. -/
theorem rounding_stability_witness :
    (STANDARD_REDUCTION_POTENTIALS refParams.anode = some (-0.76) ∧
      STANDARD_REDUCTION_POTENTIALS refParams.cathode = some 0.34 ∧
      refParams.concCathode ≠ 0 ∧ 0 < refCell.environment.pressure) ∧
    ((∃ k : ℤ, refCell.calculateCellPotential refParams = Except.ok ((k : ℝ) / 10000)) ∧
      (∃ m : ℤ, refCell.environment.modifyPotential (-0.76) = (m : ℝ) / 1000) ∧
      (∃ m : ℤ, refCell.environment.modifyPotential 0.34 = (m : ℝ) / 1000)) :=
  ⟨⟨rfl, rfl, by norm_num [refParams], by norm_num [refCell, refEnv]⟩,
    rounding_stability refCell refParams (-0.76) 0.34 rfl rfl
      (by norm_num [refParams]) (by norm_num [refCell, refEnv])⟩

/-- C9: `calculateCellPotential` is deterministic: two engines and two
parameter values that agree field by field (identical values, not
necessarily identical objects) produce identical results.  The embedding is
a pure function over immutable value structures, so the no-mutation half of
the claim holds by construction. -/
theorem determinism_of_inputs
    (e1 e2 : EnvironmentSettings) (p1 p2 : SimulationParameters)
    (henv : e1.temperature = e2.temperature ∧ e1.pressure = e2.pressure
      ∧ e1.solvent = e2.solvent ∧ e1.catalyst = e2.catalyst ∧ e1.ph = e2.ph)
    (hpar : p1.anode = p2.anode ∧ p1.cathode = p2.cathode
      ∧ p1.concAnode = p2.concAnode ∧ p1.concCathode = p2.concCathode
      ∧ p1.molesReactant = p2.molesReactant ∧ p1.environment = p2.environment) :
    AdvancedElectrochemicalCell.calculateCellPotential ⟨e1⟩ p1
      = AdvancedElectrochemicalCell.calculateCellPotential ⟨e2⟩ p2 := by
  obtain ⟨h1, h2, h3, h4, h5⟩ := henv
  obtain ⟨g1, g2, g3, g4, g5, g6⟩ := hpar
  cases e1
  cases e2
  cases p1
  cases p2
  simp_all

/-- A second copy of the reference environment, equal to `refEnv` field by
field but introduced as a distinct definition. -/
noncomputable def refEnvCopy : EnvironmentSettings :=
  { temperature := 25, pressure := 1, solvent := "Water", catalyst := none, ph := 7 }

/-- A second copy of the reference parameters over `refEnvCopy`. -/
noncomputable def refParamsCopy : SimulationParameters :=
  { anode := "Zn", cathode := "Cu", concAnode := 1, concCathode := 1,
    molesReactant := 1, environment := refEnvCopy }

/-- Witness for C9: the reference input and its field-identical copy give
the same result. -/
theorem determinism_of_inputs_witness :
    (refEnv.temperature = refEnvCopy.temperature ∧ refEnv.pressure = refEnvCopy.pressure
      ∧ refEnv.solvent = refEnvCopy.solvent ∧ refEnv.catalyst = refEnvCopy.catalyst
      ∧ refEnv.ph = refEnvCopy.ph) ∧
    (refParams.anode = refParamsCopy.anode ∧ refParams.cathode = refParamsCopy.cathode
      ∧ refParams.concAnode = refParamsCopy.concAnode
      ∧ refParams.concCathode = refParamsCopy.concCathode
      ∧ refParams.molesReactant = refParamsCopy.molesReactant
      ∧ refParams.environment = refParamsCopy.environment) ∧
    AdvancedElectrochemicalCell.calculateCellPotential ⟨refEnv⟩ refParams
      = AdvancedElectrochemicalCell.calculateCellPotential ⟨refEnvCopy⟩ refParamsCopy :=
  ⟨⟨rfl, rfl, rfl, rfl, rfl⟩, ⟨rfl, rfl, rfl, rfl, rfl, rfl⟩,
    determinism_of_inputs refEnv refEnvCopy refParams refParamsCopy
      ⟨rfl, rfl, rfl, rfl, rfl⟩ ⟨rfl, rfl, rfl, rfl, rfl, rfl⟩⟩

/-- C10: `calculateCellPotential` reads the environment only from the
engine it is invoked on: two parameter values that differ only in their
`environment` field produce identical results. -/
theorem params_environment_ignored
    (cell : AdvancedElectrochemicalCell) (p1 p2 : SimulationParameters)
    (h1 : p1.anode = p2.anode) (h2 : p1.cathode = p2.cathode)
    (h3 : p1.concAnode = p2.concAnode) (h4 : p1.concCathode = p2.concCathode)
    (h5 : p1.molesReactant = p2.molesReactant) :
    cell.calculateCellPotential p1 = cell.calculateCellPotential p2 := by
  cases p1
  cases p2
  simp_all [AdvancedElectrochemicalCell.calculateCellPotential]

/-- An environment differing from `refEnv` in every field, used to show the
`environment` field of `SimulationParameters` is ignored. -/
noncomputable def altEnv : EnvironmentSettings :=
  { temperature := 99, pressure := 5, solvent := "DMSO", catalyst := some "Pt", ph := 2 }

/-- The reference parameters with their `environment` field swapped for
`altEnv`; every other field is unchanged. -/
noncomputable def refParamsAltEnv : SimulationParameters :=
  { anode := "Zn", cathode := "Cu", concAnode := 1, concCathode := 1,
    molesReactant := 1, environment := altEnv }

/-- Witness for C10: swapping the `environment` field of the reference
parameters does not change the engine's result. -/
theorem params_environment_ignored_witness :
    (refParams.anode = refParamsAltEnv.anode ∧ refParams.cathode = refParamsAltEnv.cathode
      ∧ refParams.concAnode = refParamsAltEnv.concAnode
      ∧ refParams.concCathode = refParamsAltEnv.concCathode
      ∧ refParams.molesReactant = refParamsAltEnv.molesReactant) ∧
    refCell.calculateCellPotential refParams
      = refCell.calculateCellPotential refParamsAltEnv :=
  ⟨⟨rfl, rfl, rfl, rfl, rfl⟩,
    params_environment_ignored refCell refParams refParamsAltEnv rfl rfl rfl rfl rfl⟩

end GalvaSim
